import Mathlib

/-
  Verification of the Spectral ABF sampling method
  (src/pysages/methods/spectral_abf.py).

  Shallow embedding conventions:
  * A grid bin is addressed by a multi-index `List Nat` (one entry per grid
    dimension); grid-shaped arrays are total functions from multi-indices.
  * CV-space vectors (`xi`, `force`, `Wp`, ...) are `List ℚ`; matrices
    (the Jacobian `Jxi`) are lists of rows.
  * External collaborators (the CV evaluator, `jax.scipy.linalg.solve`, the
    basis-function fitter/evaluators from `pysages.approxfun`, and the grid
    indexer from `pysages.grids`) live outside this file's source and are
    passed in as explicit function parameters, bundled in `Externals`.
  * `jax.lax.cond(pred, f, g, x)` is embedded as `if pred then f x else g x`.
  * JAX scatter updates (`arr.at[idx].add(v)`) drop out-of-bounds indices;
    the embedding guards every scatter with an in-range test.
-/

namespace SpecABF

/-- A grid bin multi-index, one coordinate per grid dimension. -/
abbrev GridIdx := List Nat

/-- Predicate `inRange i shape`: true when `i` and `shape` have the same length and
every coordinate of `i` is strictly below the corresponding shape entry
(the multi-index addresses an actual bin of the grid). -/
def inRange : GridIdx → List Nat → Bool
  | [], [] => true
  | i :: is, n :: ns => decide (i < n) && inRange is ns
  | _, _ => false

/-- Embeds `np.any(np.array(state.ind) == grid.shape)`: some coordinate of the
multi-index equals the corresponding grid-shape entry (the indexer's
out-of-range sentinel value for that dimension). -/
def out_of_bounds (ind : GridIdx) (shape : List Nat) : Bool :=
  (List.zip ind shape).any fun p => p.1 == p.2

/-- Elementwise sum of two CV-space vectors. -/
def vadd (v w : List ℚ) : List ℚ := List.zipWith (· + ·) v w

/-- Elementwise difference of two CV-space vectors. -/
def vsub (v w : List ℚ) : List ℚ := List.zipWith (· - ·) v w

/-- Scalar multiple of a CV-space vector. -/
def vscale (c : ℚ) (v : List ℚ) : List ℚ := v.map (fun x => c * x)

/-- Dot product of two vectors. -/
def dot (v w : List ℚ) : ℚ := (List.zipWith (· * ·) v w).sum

/-- Matrix-vector product, the matrix given as a list of rows. -/
def matvec (A : List (List ℚ)) (v : List ℚ) : List ℚ := A.map (fun row => dot row v)

/-- Matrix-matrix product `A @ B`, both given as lists of rows. -/
def matmul (A B : List (List ℚ)) : List (List ℚ) :=
  A.map (fun row => B.transpose.map (fun col => dot row col))

/-- Record `CVRestraints` (pysages.methods.restraints): lower/upper bounds of the
restraint box and the harmonic constants below/above it. -/
structure CVRestraints where
  lower : List ℚ
  upper : List ℚ
  kl : List ℚ
  kh : List ℚ

/-- The construction-time configuration of a `SpectralABF` method: the grid
geometry (`lower`, `upper`, `shape`) and the parameters `N`, `fit_freq`,
`fit_threshold`, and the optional restraints. -/
structure SpectralABFMethod where
  lower : List ℚ
  upper : List ℚ
  shape : List Nat
  N : Nat
  fit_freq : Nat
  fit_threshold : Nat
  restraints : Option CVRestraints

/-- Record `SpectralABFState`: the per-replica simulation state.  `F` is the opaque
type of the basis-coefficients object `Fun` (the field is named `fun'`
because `fun` is reserved in Lean). -/
structure SpectralABFState (F : Type) where
  xi : List ℚ
  bias : List ℚ
  hist : GridIdx → Nat
  Fsum : GridIdx → List ℚ
  force : List ℚ
  Wp : List ℚ
  Wp_ : List ℚ
  fun' : F
  nstep : Nat

/-- Record `PartialSpectralABFState`: the read-only scratch view handed to the
force estimator. -/
structure PartialSpectralABFState (F : Type) where
  xi : List ℚ
  hist : GridIdx → Nat
  Fsum : GridIdx → List ℚ
  ind : GridIdx
  fun' : F
  pred : Bool

/-- Modelled from the spec: `apply_restraints` (pysages.methods.restraints,
whose source is not under src/).  Per §4.3/§6 of the spec it returns the
harmonic pseudo-force computed componentwise from `xi` alone:
`k_low·(lower−xi)` below the lower bound, `k_high·(upper−xi)` above the
upper bound, and zero inside the box. -/
def restraint_component (lo hi kl kh x : ℚ) : ℚ :=
  if x < lo then kl * (lo - x) else if hi < x then kh * (hi - x) else 0

/-- Modelled from the spec: componentwise application of
`restraint_component` over the CV dimensions. -/
def apply_restraints : List ℚ → List ℚ → List ℚ → List ℚ → List ℚ → List ℚ
  | lo :: los, hi :: his, kl :: kls, kh :: khs, x :: xs =>
      restraint_component lo hi kl kh x :: apply_restraints los his kls khs xs
  | _, _, _, _, _ => []

/-- Modelled from the spec: the external `GridIndexer` (`build_indexer` in
pysages.grids, whose source is not under src/).  Per §6 it maps `xi` to an
integer bin multi-index, in range whenever `xi` lies inside the grid
domain; a coordinate outside the domain yields the out-of-range sentinel
`shape[d]` in that component (the value `build_force_estimator` tests
against). -/
def spec_grid_index_component (lo hi : ℚ) (n : Nat) (x : ℚ) : Nat :=
  if lo ≤ x ∧ x < hi then (⌊(x - lo) * n / (hi - lo)⌋).toNat else n

/-- Modelled from the spec: the grid indexer applied componentwise. -/
def spec_grid_index : List ℚ → List ℚ → List Nat → List ℚ → GridIdx
  | lo :: los, hi :: his, n :: ns, x :: xs =>
      spec_grid_index_component lo hi n x :: spec_grid_index los his ns xs
  | _, _, _, _ => []

/-- The `average_force` branch of the estimator:
`state.Fsum[i] / np.maximum(state.hist[i], N)`. -/
def average_force {F : Type} (N : Nat) (state : PartialSpectralABFState F) : List ℚ :=
  (state.Fsum state.ind).map (fun c => c / ((max (state.hist state.ind) N : Nat) : ℚ))

/-- The `interpolate_force` branch of the estimator: the gradient of the fitted
basis expansion evaluated at `xi` (`get_grad` is the external
`build_grad_evaluator(model)`; the `reshape` only fixes the array shape). -/
def interpolate_force {F : Type} (get_grad : F → List ℚ → List ℚ)
    (state : PartialSpectralABFState F) : List ℚ :=
  get_grad state.fun' state.xi

/-- The inner `_estimate_force`: `cond(state.pred, interpolate_force,
average_force, state)`. -/
def estimate_force_core {F : Type} (N : Nat) (get_grad : F → List ℚ → List ℚ)
    (state : PartialSpectralABFState F) : List ℚ :=
  if state.pred then interpolate_force get_grad state else average_force N state

/-- Embeds `build_force_estimator`: without restraints the estimator is
`_estimate_force`; with restraints it first tests the out-of-bounds
condition `np.any(np.array(state.ind) == grid.shape)` and returns the
restraint pseudo-force when it holds. -/
def build_force_estimator {F : Type} (m : SpectralABFMethod)
    (get_grad : F → List ℚ → List ℚ) (state : PartialSpectralABFState F) : List ℚ :=
  match m.restraints with
  | none => estimate_force_core m.N get_grad state
  | some r =>
      if out_of_bounds state.ind m.shape then
        apply_restraints r.lower r.upper r.kl r.kh state.xi
      else estimate_force_core m.N get_grad state

/-- The binned mean-force field handed to the fitter by `_fit_forces`:
`state.Fsum / np.maximum(state.hist.reshape(shape), 1)`, the histogram
broadcast across the CV axis. -/
def fit_field (hist : GridIdx → Nat) (Fsum : GridIdx → List ℚ) : GridIdx → List ℚ :=
  fun i => (Fsum i).map (fun c => c / ((max (hist i) 1 : Nat) : ℚ))

/-- Embeds `build_free_energy_fitter`'s `fit_forces`:
`cond(in_fitting_step, _fit_forces, skip_fitting, state)`. -/
def fit_forces {F : Type} (fit : (GridIdx → List ℚ) → F)
    (state : SpectralABFState F) (in_fitting_step : Bool) : F :=
  if in_fitting_step then fit (fit_field state.hist state.Fsum) else state.fun'

/-- Line 179: `in_fitting_regime = nstep > fit_threshold`. -/
def fitting_regime (fit_threshold nstep : Nat) : Bool := fit_threshold < nstep

/-- Line 180: `in_fitting_step = in_fitting_regime & (nstep % fit_freq == 1)`. -/
def fitting_step (fit_threshold fit_freq nstep : Nat) : Bool :=
  fitting_regime fit_threshold nstep && (nstep % fit_freq == 1)

/-- Embeds `hist.at[I].add(1)`: JAX scatter-add of 1 at multi-index `I`; an
out-of-bounds index (any coordinate at or past the shape) is dropped. -/
def scatter_add_nat (h : GridIdx → Nat) (i : GridIdx) (shape : List Nat) :
    GridIdx → Nat :=
  fun j => if inRange i shape = true ∧ j = i then h j + 1 else h j

/-- Embeds `Fsum.at[I].add(v)`: JAX scatter-add of the CV-space vector `v` at
multi-index `I`, likewise dropping out-of-bounds indices. -/
def scatter_add_vec (f : GridIdx → List ℚ) (i : GridIdx) (shape : List Nat)
    (v : List ℚ) : GridIdx → List ℚ :=
  fun j => if inRange i shape = true ∧ j = i then vadd (f j) v else f j

/-- The external collaborators closed over by `_spectral_abf`:
the CV evaluator `cv`, the snapshot momenta, the linear solver
(`jax.scipy.linalg.solve`), the basis fitter (`build_fitter(model)`), the
gradient evaluator (`build_grad_evaluator(model)`), the grid indexer
(`build_indexer(grid)`), the timestep `dt`, and the particle counts that
fix the bias-array size. -/
structure Externals (F D : Type) where
  cv : D → List ℚ × List (List ℚ)
  momenta : D → List ℚ
  solve : List (List ℚ) → List ℚ → List ℚ
  fit : (GridIdx → List ℚ) → F
  get_grad : F → List ℚ → List ℚ
  get_grid_index : List ℚ → GridIdx
  dt : ℚ
  natoms : Nat
  dimensionality : Nat

/-- The `initialize` closure of `_spectral_abf` (lines 165-174): every grid
and CV-space field starts at zero, `xi` is the CV evaluated at the initial
snapshot, `fun` is the fit of the all-zero `Fsum`, and `nstep` is 1. -/
def initState {F D : Type} (m : SpectralABFMethod) (ext : Externals F D)
    (snapshot : D) : SpectralABFState F :=
  let dims := m.shape.length
  { xi := (ext.cv snapshot).1
    bias := List.replicate (ext.natoms * ext.dimensionality) 0
    hist := fun _ => 0
    Fsum := fun _ => List.replicate dims 0
    force := List.replicate dims 0
    Wp := List.replicate dims 0
    Wp_ := List.replicate dims 0
    fun' := ext.fit (fun _ => List.replicate dims 0)
    nstep := 1 }

/-- Line 187: `Wp = solve(Jxi @ Jxi.T, Jxi @ p, sym_pos="sym")`, with the
linear solver supplied externally. -/
def step_Wp {F D : Type} (ext : Externals F D) (data : D) : List ℚ :=
  ext.solve (matmul (ext.cv data).2 (ext.cv data).2.transpose)
    (matvec (ext.cv data).2 (ext.momenta data))

/-- Line 189, the second-order backward finite difference:
`dWp_dt = (1.5 * Wp - 2.0 * Wp_prev + 0.5 * Wp_prevprev) / dt`. -/
def dWp_dt_of (dt : ℚ) (Wp Wp1 Wp2 : List ℚ) : List ℚ :=
  vscale (1 / dt) (vadd (vsub (vscale (3 / 2) Wp) (vscale 2 Wp1)) (vscale (1 / 2) Wp2))

/-- The `update` closure of `_spectral_abf` (lines 176-200), one step of the
state machine.  `Wp` is the external solve of `(Jxi @ Jxi.T) x = Jxi @ p`,
`dWp_dt` the second-order backward finite difference, and the scatters,
fitter gate and estimator follow the source line by line. -/
def update {F D : Type} (m : SpectralABFMethod) (ext : Externals F D)
    (state : SpectralABFState F) (data : D) : SpectralABFState F :=
  let nstep := state.nstep
  let fun' := fit_forces ext.fit state (fitting_step m.fit_threshold m.fit_freq nstep)
  let xi := (ext.cv data).1
  let Jxi := (ext.cv data).2
  let Wp := step_Wp ext data
  let dWp_dt := dWp_dt_of ext.dt Wp state.Wp state.Wp_
  let I_xi := ext.get_grid_index xi
  let hist := scatter_add_nat state.hist I_xi m.shape
  let Fsum := scatter_add_vec state.Fsum I_xi m.shape (vadd dWp_dt state.force)
  let force := build_force_estimator m ext.get_grad
    ⟨xi, hist, Fsum, I_xi, fun', fitting_regime m.fit_threshold nstep⟩
  let bias := vscale (-1) (matvec Jxi.transpose force)
  ⟨xi, bias, hist, Fsum, force, Wp, state.Wp, fun', state.nstep + 1⟩

/-- A run: folding `update` over a list of per-step simulation data. -/
def run {F D : Type} (m : SpectralABFMethod) (ext : Externals F D)
    (s : SpectralABFState F) (ds : List D) : SpectralABFState F :=
  ds.foldl (update m ext) s

/-- All bin multi-indices of a grid of the given shape. -/
def allIndices : List Nat → List GridIdx
  | [] => [[]]
  | n :: ns => (List.range n).flatMap (fun i => (allIndices ns).map (fun t => i :: t))

/-- Total visit count: the sum of a histogram over every bin of the grid. -/
def gridSum (shape : List Nat) (h : GridIdx → Nat) : Nat :=
  ((allIndices shape).map h).sum

/-- The dynamically-typed return shape of `first_or_all`: a bare value for a
single-replica run, a list for a multi-replica run. -/
inductive OneOrAll (α : Type) where
  | one : α → OneOrAll α
  | all : List α → OneOrAll α
deriving DecidableEq

/-- Embeds `first_or_all`: `seq[0] if len(seq) == 1 else seq` (lines 311-312). -/
def first_or_all {α : Type} : List α → OneOrAll α
  | [x] => OneOrAll.one x
  | seq => OneOrAll.all seq

/-- Embeds `average_forces` in `analyze` (lines 304-306):
`Fsum / np.maximum(hist, 1)`, the histogram broadcast across the CV axis. -/
def average_forces (hist : GridIdx → Nat) (Fsum : GridIdx → List ℚ) :
    GridIdx → List ℚ :=
  fun i => (Fsum i).map (fun c => c / ((max (hist i) 1 : Nat) : ℚ))

/-- The affine rescaling in `mesh = (compute_mesh(grid) + 1) * grid.size / 2
+ grid.lower` (line 301), applied to one mesh point; `grid.size` is
`upper - lower`. -/
def mesh_point_transform (lower upper : List ℚ) (x : List ℚ) : List ℚ :=
  List.zipWith (fun lu c => (c + 1) * (lu.2 - lu.1) / 2 + lu.1) (lower.zip upper) x

/-- External collaborators of `analyze`: `compute_mesh` (pysages.approxfun)
producing the raw mesh in `[-1, 1]^d` for the method's grid, and the basis
evaluator `build_evaluator(model)`; `E` is the type of evaluated
free-energy surfaces. -/
structure AnalyzeExternals (F E : Type) where
  compute_mesh : SpectralABFMethod → List (List ℚ)
  evaluate : F → List (List ℚ) → E

/-- The dictionary returned by `analyze` (lines 328-335); `numpyfy_vals`
only converts array types and is the identity here. -/
structure AnalysisResult (F E : Type) where
  histogram : OneOrAll (GridIdx → Nat)
  mean_force : OneOrAll (GridIdx → List ℚ)
  free_energy : OneOrAll E
  mesh : List (List ℚ)
  fun' : OneOrAll F
  fes_fn : OneOrAll (List (List ℚ) → E)

/-- Embeds `analyze` (lines 263-336): one mesh computed from the grid, then a
per-replica loop collecting histograms, mean forces, free-energy surfaces
(each replica's fit evaluated on that same mesh), coefficients, and the
interpolation closures, each collapsed by `first_or_all`. -/
def analyze {F E : Type} (m : SpectralABFMethod) (aext : AnalyzeExternals F E)
    (states : List (SpectralABFState F)) : AnalysisResult F E :=
  let mesh := (aext.compute_mesh m).map (mesh_point_transform m.lower m.upper)
  let hists := states.map (fun s => s.hist)
  let mean_forces := states.map (fun s => average_forces s.hist s.Fsum)
  let free_energies := states.map (fun s => aext.evaluate s.fun' mesh)
  let funs := states.map (fun s => s.fun')
  let fes_fns := states.map (fun s => fun x => aext.evaluate s.fun' x)
  { histogram := first_or_all hists
    mean_force := first_or_all mean_forces
    free_energy := first_or_all free_energies
    mesh := mesh
    fun' := first_or_all funs
    fes_fn := first_or_all fes_fns }

/-! ### Basic lemmas about the embedding -/

/-- Unfolding lemma: the histogram returned by `update` is the incoming
histogram scatter-incremented at the visited bin. -/
theorem update_hist {F D : Type} (m : SpectralABFMethod) (ext : Externals F D)
    (s : SpectralABFState F) (d : D) :
    (update m ext s d).hist =
      scatter_add_nat s.hist (ext.get_grid_index (ext.cv d).1) m.shape := rfl

/-- Unfolding lemma: the cumulative-force grid returned by `update`. -/
theorem update_Fsum {F D : Type} (m : SpectralABFMethod) (ext : Externals F D)
    (s : SpectralABFState F) (d : D) :
    (update m ext s d).Fsum =
      scatter_add_vec s.Fsum (ext.get_grid_index (ext.cv d).1) m.shape
        (vadd (dWp_dt_of ext.dt (step_Wp ext d) s.Wp s.Wp_) s.force) := rfl

/-- Unfolding lemma: the step counter advances by one. -/
theorem update_nstep {F D : Type} (m : SpectralABFMethod) (ext : Externals F D)
    (s : SpectralABFState F) (d : D) :
    (update m ext s d).nstep = s.nstep + 1 := rfl

/-- Unfolding lemma: the coefficients returned by `update` come from the
gated fitter applied to the incoming state. -/
theorem update_fun {F D : Type} (m : SpectralABFMethod) (ext : Externals F D)
    (s : SpectralABFState F) (d : D) :
    (update m ext s d).fun' =
      fit_forces ext.fit s (fitting_step m.fit_threshold m.fit_freq s.nstep) := rfl

/-- Unfolding lemma: the force returned by `update` is the estimator applied
to the updated grids, the current bin, the (possibly refitted)
coefficients, and the regime flag. -/
theorem update_force {F D : Type} (m : SpectralABFMethod) (ext : Externals F D)
    (s : SpectralABFState F) (d : D) :
    (update m ext s d).force =
      build_force_estimator m ext.get_grad
        ⟨(ext.cv d).1, (update m ext s d).hist, (update m ext s d).Fsum,
          ext.get_grid_index (ext.cv d).1, (update m ext s d).fun',
          fitting_regime m.fit_threshold s.nstep⟩ := rfl

/-- Unfolding lemma: one step of `run`. -/
theorem run_cons {F D : Type} (m : SpectralABFMethod) (ext : Externals F D)
    (s : SpectralABFState F) (d : D) (ds : List D) :
    run m ext s (d :: ds) = run m ext (update m ext s d) ds := rfl

/-- Membership in `allIndices` is exactly the in-range test. -/
theorem mem_allIndices : ∀ (shape : List Nat) (i : GridIdx),
    i ∈ allIndices shape ↔ inRange i shape = true
  | [], [] => by simp [allIndices, inRange]
  | [], a :: t => by simp [allIndices, inRange]
  | n :: ns, [] => by simp [allIndices, inRange]
  | n :: ns, a :: t => by
      simp only [allIndices, List.mem_flatMap, List.mem_range, List.mem_map,
        inRange, Bool.and_eq_true, decide_eq_true_eq]
      constructor
      · rintro ⟨x, hx, t', ht', heq⟩
        injection heq with h1 h2
        rw [h1] at hx
        rw [h2] at ht'
        exact ⟨hx, (mem_allIndices ns t).mp ht'⟩
      · rintro ⟨ha, ht⟩
        exact ⟨a, ha, t, (mem_allIndices ns t).mpr ht, rfl⟩

/-- The enumeration of bins has no duplicates. -/
theorem nodup_allIndices : ∀ shape : List Nat, (allIndices shape).Nodup
  | [] => by simp [allIndices]
  | n :: ns => by
      rw [allIndices, List.nodup_flatMap]
      refine ⟨fun x _ => ?_, ?_⟩
      · exact (nodup_allIndices ns).map fun a b h => by injection h
      · refine List.Pairwise.imp ?_ (List.nodup_range n)
        intro a b hab
        intro l hla hlb
        obtain ⟨ta, -, rfl⟩ := List.mem_map.mp hla
        obtain ⟨tb, -, hba⟩ := List.mem_map.mp hlb
        exact hab (by injection hba with h1 _; exact h1.symm)

/-- Summing a pointwise-bumped function over a duplicate-free list that
contains the bumped point adds exactly one to the total. -/
theorem sum_map_ite_mem {α : Type} [DecidableEq α] (l : List α) (g : α → Nat)
    (x : α) (hx : x ∈ l) (hnd : l.Nodup) :
    (l.map (fun j => if j = x then g j + 1 else g j)).sum = (l.map g).sum + 1 := by
  induction l with
  | nil => cases hx
  | cons a as ih =>
      rcases List.mem_cons.mp hx with rfl | hmem
      · have hna : x ∉ as := (List.nodup_cons.mp hnd).1
        have hcongr : as.map (fun j => if j = x then g j + 1 else g j) = as.map g := by
          refine List.map_congr_left fun j hj => ?_
          have hjx : j ≠ x := fun hji => hna (hji ▸ hj)
          simp [hjx]
        simp only [List.map_cons, List.sum_cons, hcongr, if_pos]
        omega
      · have hax : a ≠ x := by rintro rfl; exact (List.nodup_cons.mp hnd).1 hmem
        simp only [List.map_cons, List.sum_cons, if_neg hax]
        rw [ih hmem (List.nodup_cons.mp hnd).2]; omega

/-- An in-range scatter-add of 1 raises the total visit count by 1. -/
theorem gridSum_scatter (shape : List Nat) (h : GridIdx → Nat) (i : GridIdx)
    (hi : inRange i shape = true) :
    gridSum shape (scatter_add_nat h i shape) = gridSum shape h + 1 := by
  unfold gridSum
  have hcongr : (allIndices shape).map (scatter_add_nat h i shape) =
      (allIndices shape).map (fun j => if j = i then h j + 1 else h j) :=
    List.map_congr_left fun j _ => by
      simp only [scatter_add_nat, hi, true_and]
  rw [hcongr]
  exact sum_map_ite_mem (allIndices shape) h i ((mem_allIndices shape i).mpr hi)
    (nodup_allIndices shape)

/-- An in-range index never triggers the estimator's out-of-bounds test. -/
theorem inRange_not_out_of_bounds : ∀ (i : GridIdx) (shape : List Nat),
    inRange i shape = true → out_of_bounds i shape = false
  | [], [], _ => by simp [out_of_bounds]
  | i :: is, n :: ns, h => by
      simp only [inRange, Bool.and_eq_true, decide_eq_true_eq] at h
      simp only [out_of_bounds, List.zip_cons_cons, List.any_cons, Bool.or_eq_false_iff,
        beq_eq_false_iff_ne, ne_eq]
      exact ⟨Nat.ne_of_lt h.1, by
        have := inRange_not_out_of_bounds is ns h.2
        simpa [out_of_bounds] using this⟩

/-- The all-zero histogram has total visit count zero. -/
theorem gridSum_zero (shape : List Nat) : gridSum shape (fun _ => 0) = 0 := by
  simp [gridSum]

/-- Each step whose bin index is in range raises the total visit count by
exactly one; over a run the total grows by the number of steps. -/
theorem gridSum_run {F D : Type} (m : SpectralABFMethod) (ext : Externals F D)
    (ds : List D) (s : SpectralABFState F)
    (h : ∀ d ∈ ds, inRange (ext.get_grid_index (ext.cv d).1) m.shape = true) :
    gridSum m.shape (run m ext s ds).hist = gridSum m.shape s.hist + ds.length := by
  induction ds generalizing s with
  | nil => simp [run]
  | cons d ds ih =>
      rw [run_cons, ih (update m ext s d) fun d' hd' => h d' (List.mem_cons_of_mem d hd'),
        update_hist, gridSum_scatter m.shape s.hist _ (h d (List.mem_cons_self d ds))]
      simp [Nat.add_assoc, Nat.add_comm 1 ds.length]

/-- Invariant: every bin with zero visits carries the all-zero cumulative
force vector. -/
def zeroFsumInv {F : Type} (dims : Nat) (s : SpectralABFState F) : Prop :=
  ∀ i, s.hist i = 0 → s.Fsum i = List.replicate dims 0

/-- One step preserves `zeroFsumInv`: `hist` and `Fsum` are scattered at the
same index under the same in-range guard, and visit counts never
decrease. -/
theorem update_zeroFsumInv {F D : Type} (m : SpectralABFMethod) (ext : Externals F D)
    (s : SpectralABFState F) (d : D) (hs : zeroFsumInv m.shape.length s) :
    zeroFsumInv m.shape.length (update m ext s d) := by
  intro i hi
  rw [update_hist] at hi
  rw [update_Fsum]
  unfold scatter_add_nat at hi
  unfold scatter_add_vec
  by_cases hc : inRange (ext.get_grid_index (ext.cv d).1) m.shape = true
    ∧ i = ext.get_grid_index (ext.cv d).1
  · rw [if_pos hc] at hi; omega
  · rw [if_neg hc] at hi
    rw [if_neg hc]
    exact hs i hi

/-- Invariant `zeroFsumInv` holds along any run from any state satisfying it. -/
theorem run_zeroFsumInv {F D : Type} (m : SpectralABFMethod) (ext : Externals F D)
    (ds : List D) (s : SpectralABFState F) (hs : zeroFsumInv m.shape.length s) :
    zeroFsumInv m.shape.length (run m ext s ds) := by
  induction ds generalizing s with
  | nil => exact hs
  | cons d ds ih => exact ih (update m ext s d) (update_zeroFsumInv m ext s d hs)

/-- The initial state satisfies `zeroFsumInv`. -/
theorem initState_zeroFsumInv {F D : Type} (m : SpectralABFMethod)
    (ext : Externals F D) (snapshot : D) :
    zeroFsumInv m.shape.length (initState m ext snapshot) := fun _ _ => rfl

/-- The fitter gate in propositional form. -/
theorem fitting_step_iff (ft ff n : Nat) :
    fitting_step ft ff n = true ↔ ft < n ∧ n % ff = 1 := by
  simp [fitting_step, fitting_regime]

/-- The regime flag is off exactly on the early steps. -/
theorem fitting_regime_eq_false (ft n : Nat) :
    fitting_regime ft n = false ↔ n ≤ ft := by
  simp [fitting_regime]

/-! ### Claim theorems -/

/-- C1: in every call to `update` whose bin index addresses a bin of the
grid, the visit count at that bin grows by 1 and the cumulative force at
that bin grows by `dWp_dt + state.force`, where `state.force` is the force
estimate carried in the incoming state; the force estimated during this
step only appears in the `force` field of the returned state (it is the
estimator's output on the already-updated grids). -/
theorem claim_c1 {F D : Type} (m : SpectralABFMethod) (ext : Externals F D)
    (s : SpectralABFState F) (d : D)
    (hin : inRange (ext.get_grid_index (ext.cv d).1) m.shape = true) :
    (update m ext s d).hist (ext.get_grid_index (ext.cv d).1) =
        s.hist (ext.get_grid_index (ext.cv d).1) + 1
    ∧ (update m ext s d).Fsum (ext.get_grid_index (ext.cv d).1) =
        vadd (s.Fsum (ext.get_grid_index (ext.cv d).1))
          (vadd (dWp_dt_of ext.dt (step_Wp ext d) s.Wp s.Wp_) s.force)
    ∧ (update m ext s d).force =
        build_force_estimator m ext.get_grad
          ⟨(ext.cv d).1, (update m ext s d).hist, (update m ext s d).Fsum,
            ext.get_grid_index (ext.cv d).1, (update m ext s d).fun',
            fitting_regime m.fit_threshold s.nstep⟩ := by
  refine ⟨?_, ?_, update_force m ext s d⟩
  · rw [update_hist]
    unfold scatter_add_nat
    rw [if_pos ⟨hin, rfl⟩]
  · rw [update_Fsum]
    unfold scatter_add_vec
    rw [if_pos ⟨hin, rfl⟩]

/-- C4: the basis coefficients are carried over unchanged by `update` unless
`nstep > fit_threshold` and `nstep % fit_freq == 1`, in which case they are
refit from the elementwise quotient `Fsum / max(hist, 1)` of the grids of
the incoming state. -/
theorem claim_c4 {F D : Type} (m : SpectralABFMethod) (ext : Externals F D)
    (s : SpectralABFState F) (d : D) :
    (update m ext s d).fun' =
      if m.fit_threshold < s.nstep ∧ s.nstep % m.fit_freq = 1 then
        ext.fit (fit_field s.hist s.Fsum)
      else s.fun' := by
  rw [update_fun]
  unfold fit_forces
  by_cases h : m.fit_threshold < s.nstep ∧ s.nstep % m.fit_freq = 1
  · rw [if_pos ((fitting_step_iff _ _ _).mpr h), if_pos h]
  · have hb : fitting_step m.fit_threshold m.fit_freq s.nstep = false :=
      Bool.eq_false_iff.mpr fun hc => h ((fitting_step_iff _ _ _).mp hc)
    rw [hb, if_neg h]
    simp

/-- C5: starting from the initial state, a run of N updates whose bin
indices all lie in range ends with `sum(hist) = N`; moreover each such
update increments exactly the visited bin by exactly 1 and leaves every
other bin unchanged. -/
theorem claim_c5 {F D : Type} (m : SpectralABFMethod) (ext : Externals F D)
    (snapshot : D) (ds : List D)
    (h : ∀ d ∈ ds, inRange (ext.get_grid_index (ext.cv d).1) m.shape = true) :
    gridSum m.shape (run m ext (initState m ext snapshot) ds).hist = ds.length
    ∧ ∀ (s : SpectralABFState F) (d : D),
        inRange (ext.get_grid_index (ext.cv d).1) m.shape = true →
        (update m ext s d).hist (ext.get_grid_index (ext.cv d).1) =
            s.hist (ext.get_grid_index (ext.cv d).1) + 1
        ∧ ∀ j, j ≠ ext.get_grid_index (ext.cv d).1 →
            (update m ext s d).hist j = s.hist j := by
  constructor
  · rw [gridSum_run m ext ds (initState m ext snapshot) h]
    have hz : gridSum m.shape (initState m ext snapshot).hist = 0 := gridSum_zero m.shape
    omega
  · intro s d hin
    constructor
    · rw [update_hist]
      unfold scatter_add_nat
      rw [if_pos ⟨hin, rfl⟩]
    · intro j hj
      rw [update_hist]
      unfold scatter_add_nat
      rw [if_neg fun hc => hj hc.2]

/-- C2 (amended): with restraints configured, whenever the grid indexer
returns the out-of-range sentinel in some component — which is what the
code tests, rather than `xi`'s position relative to the restraint box —
the estimated force is exactly the restraint pseudo-force computed from
`xi` alone, for every content of `hist`/`Fsum` and both regime flags. -/
theorem claim_c2 {F : Type} (m : SpectralABFMethod) (r : CVRestraints)
    (hr : m.restraints = some r) (g : F → List ℚ → List ℚ)
    (st : PartialSpectralABFState F)
    (hob : out_of_bounds st.ind m.shape = true) :
    build_force_estimator m g st = apply_restraints r.lower r.upper r.kl r.kh st.xi := by
  unfold build_force_estimator
  rw [hr]
  simp [hob]

/-- C3 (amended): on every update step with `nstep ≤ fit_threshold` in which
the restraint branch is not selected (no restraints configured, or the bin
index does not hit the out-of-range sentinel), the estimator output stored
in the returned state is the discrete average `Fsum[bin] / max(hist[bin],
N)` over the updated grids — an expression independent of the
basis-function fit. -/
theorem claim_c3 {F D : Type} (m : SpectralABFMethod) (ext : Externals F D)
    (s : SpectralABFState F) (d : D)
    (hreg : s.nstep ≤ m.fit_threshold)
    (hsafe : m.restraints = none ∨
      out_of_bounds (ext.get_grid_index (ext.cv d).1) m.shape = false) :
    (update m ext s d).force =
      ((update m ext s d).Fsum (ext.get_grid_index (ext.cv d).1)).map
        (fun c => c /
          ((max ((update m ext s d).hist (ext.get_grid_index (ext.cv d).1)) m.N : Nat) : ℚ)) := by
  rw [update_force]
  have hpred : fitting_regime m.fit_threshold s.nstep = false :=
    (fitting_regime_eq_false _ _).mpr hreg
  unfold build_force_estimator
  rcases hsafe with hnone | hob
  · rw [hnone]
    simp [estimate_force_core, average_force, hpred]
  · cases hres : m.restraints with
    | none => simp [estimate_force_core, average_force, hpred]
    | some r => simp [hob, estimate_force_core, average_force, hpred]

/-- C6: on any final state of a run, the divisions performed by `analyze`'s
`average_forces` and by the free-energy fitter's field are guarded (their
common denominator `max(hist, 1)` is at least 1 at every bin), and at any
bin with zero visits both quotients are the all-zero force vector. -/
theorem claim_c6 {F D : Type} (m : SpectralABFMethod) (ext : Externals F D)
    (snapshot : D) (ds : List D) (i : GridIdx)
    (hz : (run m ext (initState m ext snapshot) ds).hist i = 0) :
    (∀ j, 1 ≤ max ((run m ext (initState m ext snapshot) ds).hist j) 1)
    ∧ average_forces (run m ext (initState m ext snapshot) ds).hist
        (run m ext (initState m ext snapshot) ds).Fsum i =
        List.replicate m.shape.length 0
    ∧ fit_field (run m ext (initState m ext snapshot) ds).hist
        (run m ext (initState m ext snapshot) ds).Fsum i =
        List.replicate m.shape.length 0 := by
  have hF : (run m ext (initState m ext snapshot) ds).Fsum i =
      List.replicate m.shape.length 0 :=
    run_zeroFsumInv m ext ds (initState m ext snapshot)
      (initState_zeroFsumInv m ext snapshot) i hz
  refine ⟨fun j => Nat.le_max_right _ _, ?_, ?_⟩
  · unfold average_forces
    rw [hF]
    simp [List.map_replicate]
  · unfold fit_field
    rw [hF]
    simp [List.map_replicate]

/-- C9: with restraints configured, the estimator returns the restraint
pseudo-force precisely when some component of the bin index equals the
corresponding component of the grid shape (the indexer's out-of-range
sentinel); in particular any strictly in-range bin index — whatever `xi`
is, even outside the restraint box — yields the unrestrained estimate. -/
theorem claim_c9 {F : Type} (m : SpectralABFMethod) (r : CVRestraints)
    (hr : m.restraints = some r) (g : F → List ℚ → List ℚ)
    (st : PartialSpectralABFState F) :
    (build_force_estimator m g st =
      if out_of_bounds st.ind m.shape then
        apply_restraints r.lower r.upper r.kl r.kh st.xi
      else estimate_force_core m.N g st)
    ∧ (out_of_bounds st.ind m.shape = true ↔
        ∃ p ∈ List.zip st.ind m.shape, p.1 = p.2)
    ∧ (inRange st.ind m.shape = true →
        build_force_estimator m g st = estimate_force_core m.N g st) := by
  refine ⟨?_, ?_, ?_⟩
  · unfold build_force_estimator
    rw [hr]
  · simp [out_of_bounds, List.any_eq_true]
  · intro hin
    unfold build_force_estimator
    rw [hr, inRange_not_out_of_bounds st.ind m.shape hin]
    simp

/-- C8 (amended): the initial state has every field zero except `xi`, which
is the collective variable evaluated at the initial snapshot, `fun`, which
is the external fit of the all-zero cumulative-force grid, and the step
counter `nstep`, which is 1. -/
theorem claim_c8 {F D : Type} (m : SpectralABFMethod) (ext : Externals F D)
    (snapshot : D) :
    (initState m ext snapshot).xi = (ext.cv snapshot).1
    ∧ (initState m ext snapshot).bias =
        List.replicate (ext.natoms * ext.dimensionality) 0
    ∧ (∀ i, (initState m ext snapshot).hist i = 0)
    ∧ (∀ i, (initState m ext snapshot).Fsum i = List.replicate m.shape.length 0)
    ∧ (initState m ext snapshot).force = List.replicate m.shape.length 0
    ∧ (initState m ext snapshot).Wp = List.replicate m.shape.length 0
    ∧ (initState m ext snapshot).Wp_ = List.replicate m.shape.length 0
    ∧ (initState m ext snapshot).fun' =
        ext.fit (fun _ => List.replicate m.shape.length 0)
    ∧ (initState m ext snapshot).nstep = 1 :=
  ⟨rfl, rfl, fun _ => rfl, fun _ => rfl, rfl, rfl, rfl, rfl, rfl⟩

/-- C10: on a multi-replica result, `analyze` returns `histogram`,
`mean_force`, `free_energy`, `fun`, and `fes_fn` as per-replica lists in
input order, while `mesh` is the single grid-derived array, and every
replica's `free_energy` is its fit evaluated at that same mesh. -/
theorem claim_c10 {F E : Type} (m : SpectralABFMethod) (aext : AnalyzeExternals F E)
    (states : List (SpectralABFState F)) (h : 2 ≤ states.length) :
    (analyze m aext states).histogram = OneOrAll.all (states.map fun s => s.hist)
    ∧ (analyze m aext states).mean_force =
        OneOrAll.all (states.map fun s => average_forces s.hist s.Fsum)
    ∧ (analyze m aext states).free_energy =
        OneOrAll.all (states.map fun s => aext.evaluate s.fun'
          ((aext.compute_mesh m).map (mesh_point_transform m.lower m.upper)))
    ∧ (analyze m aext states).mesh =
        (aext.compute_mesh m).map (mesh_point_transform m.lower m.upper)
    ∧ (analyze m aext states).fun' = OneOrAll.all (states.map fun s => s.fun')
    ∧ (analyze m aext states).fes_fn =
        OneOrAll.all (states.map fun s => fun x => aext.evaluate s.fun' x) := by
  rcases states with _ | ⟨s1, _ | ⟨s2, t⟩⟩
  · simp at h
  · simp at h
  · exact ⟨rfl, rfl, rfl, rfl, rfl, rfl⟩

/-! ### Concrete instantiations -/

/-- A small unrestrained 1-D configuration: grid `[0, 4)` with 4 bins,
`N = 2`, `fit_freq = 2`, `fit_threshold = 1`. -/
def exM : SpectralABFMethod :=
  { lower := [0], upper := [4], shape := [4], N := 2, fit_freq := 2, fit_threshold := 1,
    restraints := none }

/-- Concrete externals over snapshots tagged by a Bool (two CV values), with
a trivial solver and a simple one-coefficient basis model. -/
def exExt : Externals ℚ Bool :=
  { cv := fun b => (if b then [5 / 2] else [1 / 2], [[1]])
    momenta := fun _ => [2]
    solve := fun _ v => v
    fit := fun f => (f [0]).sum
    get_grad := fun c xi => [c + xi.sum]
    get_grid_index := spec_grid_index [0] [4] [4]
    dt := 1
    natoms := 2
    dimensionality := 3 }

/-- A restrained configuration whose restraint box `[1, 9]` sits strictly
inside the grid domain `[0, 10)`. -/
def rexM : SpectralABFMethod :=
  { lower := [0], upper := [10], shape := [10], N := 2, fit_freq := 100, fit_threshold := 500,
    restraints := some { lower := [1], upper := [9], kl := [2], kh := [3] } }

/-- An estimator state with `xi = 12` outside the grid domain, whose bin
index is therefore the indexer's sentinel 10. -/
def rexSt : PartialSpectralABFState ℚ :=
  { xi := [12], hist := fun _ => 5, Fsum := fun _ => [7],
    ind := spec_grid_index [0] [10] [10] [12], fun' := 4, pred := true }

/-- An estimator state whose bin index 3 is strictly in range although its
`xi = 12` lies outside the restraint box `[1, 9]`. -/
def rexSt2 : PartialSpectralABFState ℚ :=
  { xi := [12], hist := fun _ => 5, Fsum := fun _ => [7], ind := [3], fun' := 4, pred := false }

/-- Bin of the CV value 1/2 on the `exM` grid. -/
theorem exExt_index_false : exExt.get_grid_index (exExt.cv false).1 = [0] := by
  norm_num [exExt, spec_grid_index, spec_grid_index_component]

/-- Bin of the CV value 5/2 on the `exM` grid. -/
theorem exExt_index_true : exExt.get_grid_index (exExt.cv true).1 = [2] := by
  norm_num [exExt, spec_grid_index, spec_grid_index_component]
  decide

/-- The CV value 12 lies outside the `rexM` grid, so its index is the
sentinel. -/
theorem rexSt_ind_eval : rexSt.ind = [10] := by
  norm_num [rexSt, spec_grid_index, spec_grid_index_component]

/-- C1 witness at a concrete in-range step. -/
theorem claim_c1_witness :
    (update exM exExt (initState exM exExt false) true).hist
        (exExt.get_grid_index (exExt.cv true).1) =
      (initState exM exExt false).hist (exExt.get_grid_index (exExt.cv true).1) + 1
    ∧ (update exM exExt (initState exM exExt false) true).Fsum
        (exExt.get_grid_index (exExt.cv true).1) =
      vadd ((initState exM exExt false).Fsum (exExt.get_grid_index (exExt.cv true).1))
        (vadd (dWp_dt_of exExt.dt (step_Wp exExt true) (initState exM exExt false).Wp
          (initState exM exExt false).Wp_) (initState exM exExt false).force)
    ∧ (update exM exExt (initState exM exExt false) true).force =
      build_force_estimator exM exExt.get_grad
        ⟨(exExt.cv true).1, (update exM exExt (initState exM exExt false) true).hist,
          (update exM exExt (initState exM exExt false) true).Fsum,
          exExt.get_grid_index (exExt.cv true).1,
          (update exM exExt (initState exM exExt false) true).fun',
          fitting_regime exM.fit_threshold (initState exM exExt false).nstep⟩ :=
  claim_c1 exM exExt (initState exM exExt false) true (by rw [exExt_index_true]; decide)

/-- C2 witness: with the sentinel bin index the estimator is exactly the
restraint pseudo-force. -/
theorem claim_c2_witness :
    build_force_estimator rexM (fun c _ => [c]) rexSt =
      apply_restraints [1] [9] [2] [3] rexSt.xi :=
  claim_c2 rexM { lower := [1], upper := [9], kl := [2], kh := [3] } rfl
    (fun c _ => [c]) rexSt (by rw [rexSt_ind_eval]; decide)

/-- C3 witness at a concrete pre-threshold unrestrained step. -/
theorem claim_c3_witness :
    (update exM exExt (initState exM exExt false) false).force =
      ((update exM exExt (initState exM exExt false) false).Fsum
          (exExt.get_grid_index (exExt.cv false).1)).map
        (fun c => c /
          ((max ((update exM exExt (initState exM exExt false) false).hist
            (exExt.get_grid_index (exExt.cv false).1)) exM.N : Nat) : ℚ)) :=
  claim_c3 exM exExt (initState exM exExt false) false (by decide) (Or.inl rfl)

/-- C5 witness: a two-step in-range run ends with total visit count 2. -/
theorem claim_c5_witness :
    gridSum exM.shape (run exM exExt (initState exM exExt false) [false, true]).hist = 2
    ∧ ∀ (s : SpectralABFState ℚ) (d : Bool),
        inRange (exExt.get_grid_index (exExt.cv d).1) exM.shape = true →
        (update exM exExt s d).hist (exExt.get_grid_index (exExt.cv d).1) =
            s.hist (exExt.get_grid_index (exExt.cv d).1) + 1
        ∧ ∀ j, j ≠ exExt.get_grid_index (exExt.cv d).1 →
            (update exM exExt s d).hist j = s.hist j :=
  claim_c5 exM exExt false [false, true] (by
    intro d _
    cases d
    · rw [exExt_index_false]; decide
    · rw [exExt_index_true]; decide)

/-- C6 witness: after one step into bin 0, bin 3 is unvisited and both
quotients there are zero. -/
theorem claim_c6_witness :
    (∀ j, 1 ≤ max ((run exM exExt (initState exM exExt false) [false]).hist j) 1)
    ∧ average_forces (run exM exExt (initState exM exExt false) [false]).hist
        (run exM exExt (initState exM exExt false) [false]).Fsum [3] =
        List.replicate exM.shape.length 0
    ∧ fit_field (run exM exExt (initState exM exExt false) [false]).hist
        (run exM exExt (initState exM exExt false) [false]).Fsum [3] =
        List.replicate exM.shape.length 0 :=
  claim_c6 exM exExt false [false] [3] (by
    show (List.foldl (update exM exExt) (initState exM exExt false) [false]).hist [3] = 0
    rw [List.foldl_cons, List.foldl_nil, update_hist, exExt_index_false]
    decide)

/-- C9 witness at a strictly in-range bin index with `xi` outside the
restraint box. -/
theorem claim_c9_witness :
    (build_force_estimator rexM (fun c _ => [c]) rexSt2 =
      if out_of_bounds rexSt2.ind rexM.shape then
        apply_restraints [1] [9] [2] [3] rexSt2.xi
      else estimate_force_core rexM.N (fun c _ => [c]) rexSt2)
    ∧ (out_of_bounds rexSt2.ind rexM.shape = true ↔
        ∃ p ∈ List.zip rexSt2.ind rexM.shape, p.1 = p.2)
    ∧ (inRange rexSt2.ind rexM.shape = true →
        build_force_estimator rexM (fun c _ => [c]) rexSt2 =
          estimate_force_core rexM.N (fun c _ => [c]) rexSt2) :=
  claim_c9 rexM { lower := [1], upper := [9], kl := [2], kh := [3] } rfl
    (fun c _ => [c]) rexSt2

/-- Analyzer externals with a three-point mesh and a simple affine
evaluator. -/
def c10Aext : AnalyzeExternals ℚ ℚ :=
  { compute_mesh := fun _ => [[-1], [0], [1]]
    evaluate := fun c xs => c + (xs.map List.sum).sum }

/-- First replica state of the two-replica analysis example. -/
def c10s1 : SpectralABFState ℚ := initState exM exExt false

/-- Second replica state of the two-replica analysis example. -/
def c10s2 : SpectralABFState ℚ := update exM exExt (initState exM exExt false) true

/-- C10 witness: a concrete two-replica analysis. -/
theorem claim_c10_witness :
    (analyze exM c10Aext [c10s1, c10s2]).histogram = OneOrAll.all [c10s1.hist, c10s2.hist]
    ∧ (analyze exM c10Aext [c10s1, c10s2]).mean_force =
        OneOrAll.all [average_forces c10s1.hist c10s1.Fsum,
          average_forces c10s2.hist c10s2.Fsum]
    ∧ (analyze exM c10Aext [c10s1, c10s2]).free_energy =
        OneOrAll.all [c10Aext.evaluate c10s1.fun'
            ((c10Aext.compute_mesh exM).map (mesh_point_transform exM.lower exM.upper)),
          c10Aext.evaluate c10s2.fun'
            ((c10Aext.compute_mesh exM).map (mesh_point_transform exM.lower exM.upper))]
    ∧ (analyze exM c10Aext [c10s1, c10s2]).mesh =
        (c10Aext.compute_mesh exM).map (mesh_point_transform exM.lower exM.upper)
    ∧ (analyze exM c10Aext [c10s1, c10s2]).fun' = OneOrAll.all [c10s1.fun', c10s2.fun']
    ∧ (analyze exM c10Aext [c10s1, c10s2]).fes_fn =
        OneOrAll.all [fun x => c10Aext.evaluate c10s1.fun' x,
          fun x => c10Aext.evaluate c10s2.fun' x] :=
  claim_c10 exM c10Aext [c10s1, c10s2] (by decide)

/-- C2 counterexample configuration: grid `[0, 10)` with 10 bins, restraint
box `[2, 8]` strictly inside the grid domain. -/
def c2M : SpectralABFMethod :=
  { lower := [0], upper := [10], shape := [10], N := 1, fit_freq := 100, fit_threshold := 500,
    restraints := some { lower := [2], upper := [8], kl := [1], kh := [1] } }

/-- Estimator state with `xi = 9`: outside the restraint box yet inside the
grid, so the indexer assigns the in-range bin 9. -/
def c2State : PartialSpectralABFState ℚ :=
  { xi := [9], hist := fun _ => 0, Fsum := fun _ => [0],
    ind := spec_grid_index [0] [10] [10] [9], fun' := 0, pred := false }

/-- The bin of `xi = 9` on the `c2M` grid is the in-range 9. -/
theorem c2State_ind_eval : c2State.ind = [9] := by
  norm_num [c2State, spec_grid_index, spec_grid_index_component]
  decide

/-- C2 counterexample: `xi = 9` lies outside the restraint box `[2, 8]`, the
restraint formula there gives `[-1]`, yet the estimator returns the
discrete average `[0]`: the restraint branch keys on the indexer's
sentinel, not on the position of `xi` relative to the box. -/
theorem claim_c2_cex :
    (¬ ((2 : ℚ) ≤ 9 ∧ (9 : ℚ) ≤ 8))
    ∧ apply_restraints [2] [8] [1] [1] c2State.xi = [-1]
    ∧ build_force_estimator c2M (fun _ _ => [0]) c2State = [0]
    ∧ build_force_estimator c2M (fun _ _ => [0]) c2State ≠
        apply_restraints [2] [8] [1] [1] c2State.xi := by
  have h2 : apply_restraints [2] [8] [1] [1] c2State.xi = [-1] := by
    norm_num [c2State, apply_restraints, restraint_component]
  have h3 : build_force_estimator c2M (fun _ _ => [0]) c2State = [0] := by
    simp only [build_force_estimator, c2M, estimate_force_core, average_force,
      interpolate_force]
    rw [c2State_ind_eval]
    norm_num [c2State, out_of_bounds]
  refine ⟨by norm_num, h2, h3, ?_⟩
  rw [h2, h3]
  norm_num

/-- C3 counterexample configuration: restrained over its full grid domain
`[0, 10)`, with the default `fit_threshold = 500`. -/
def c3M : SpectralABFMethod :=
  { lower := [0], upper := [10], shape := [10], N := 5, fit_freq := 100, fit_threshold := 500,
    restraints := some { lower := [0], upper := [10], kl := [1], kh := [1] } }

/-- Externals for the C3 counterexample: the CV always evaluates to 11,
outside the grid domain. -/
def c3Ext : Externals ℚ Unit :=
  { cv := fun _ => ([11], [[1]])
    momenta := fun _ => [0]
    solve := fun _ v => v
    fit := fun f => (f [0]).sum
    get_grad := fun c _ => [c + 7]
    get_grid_index := spec_grid_index [0] [10] [10]
    dt := 1
    natoms := 1
    dimensionality := 3 }

/-- The CV value 11 indexes to the sentinel 10. -/
theorem c3_index_eval : c3Ext.get_grid_index (c3Ext.cv ()).1 = [10] := by
  norm_num [c3Ext, spec_grid_index, spec_grid_index_component]

/-- C3 counterexample: on the very first step (`nstep = 1 ≤ fit_threshold`)
of a restrained run driven outside the grid, the returned force is the
restraint pseudo-force `[-1]`, not the discrete average `[0]`: the
restraint branch outranks the discrete-average branch even before
`fit_threshold`. -/
theorem claim_c3_cex :
    (initState c3M c3Ext ()).nstep ≤ c3M.fit_threshold
    ∧ (update c3M c3Ext (initState c3M c3Ext ()) ()).force = [-1]
    ∧ ((update c3M c3Ext (initState c3M c3Ext ()) ()).Fsum
          (c3Ext.get_grid_index (c3Ext.cv ()).1)).map
        (fun c => c /
          ((max ((update c3M c3Ext (initState c3M c3Ext ()) ()).hist
            (c3Ext.get_grid_index (c3Ext.cv ()).1)) c3M.N : Nat) : ℚ)) = [0]
    ∧ ([(-1 : ℚ)] ≠ [0]) := by
  have hforce : (update c3M c3Ext (initState c3M c3Ext ()) ()).force = [-1] := by
    rw [update_force]
    simp only [build_force_estimator, c3M]
    rw [c3_index_eval]
    norm_num [out_of_bounds, c3Ext, apply_restraints, restraint_component]
  have havg : ((update c3M c3Ext (initState c3M c3Ext ()) ()).Fsum
        (c3Ext.get_grid_index (c3Ext.cv ()).1)).map
      (fun c => c /
        ((max ((update c3M c3Ext (initState c3M c3Ext ()) ()).hist
          (c3Ext.get_grid_index (c3Ext.cv ()).1)) c3M.N : Nat) : ℚ)) = [0] := by
    rw [update_Fsum, update_hist, c3_index_eval]
    norm_num [scatter_add_vec, scatter_add_nat, inRange, initState, c3M]
  exact ⟨by decide, hforce, havg, by norm_num⟩

/-- C7 configuration: 10 bins on `[0, 10)`, `N = 5`, `fit_freq = 2`,
`fit_threshold = 0`, no restraints. -/
def c7M : SpectralABFMethod :=
  { lower := [0], upper := [10], shape := [10], N := 5, fit_freq := 2, fit_threshold := 0,
    restraints := none }

/-- Externals for the C7 scenario: the two snapshot tags map to CV values
7/2 (bin 3) and 15/2 (bin 7). -/
def c7Ext : Externals ℚ Bool :=
  { cv := fun b => (if b then [15 / 2] else [7 / 2], [[1]])
    momenta := fun _ => [1]
    solve := fun _ v => v
    fit := fun f => (f [0]).sum
    get_grad := fun c _ => [c]
    get_grid_index := spec_grid_index [0] [10] [10]
    dt := 1
    natoms := 1
    dimensionality := 3 }

/-- A C7 run over a given list of step tags. -/
def c7Run (ds : List Bool) : SpectralABFState ℚ :=
  run c7M c7Ext (initState c7M c7Ext false) ds

/-- The CV value 7/2 falls in bin 3 of the `c7M` grid. -/
theorem c7_index_false : c7Ext.get_grid_index (c7Ext.cv false).1 = [3] := by
  norm_num [c7Ext, spec_grid_index, spec_grid_index_component]
  decide

/-- The CV value 15/2 falls in bin 7 of the `c7M` grid. -/
theorem c7_index_true : c7Ext.get_grid_index (c7Ext.cv true).1 = [7] := by
  norm_num [c7Ext, spec_grid_index, spec_grid_index_component]
  decide

/-- C7: with 10 bins, `N = 5`, `fit_freq = 2`, `fit_threshold = 0`, six
steps alternating between bins 3 and 7 leave `hist[3] = 3` and
`hist[7] = 3`, the step counter at 7, and the fitter's refit gate (the
condition selecting `_fit_forces` inside `fit_forces`) fires exactly on
steps 1, 3, and 5, i.e. at the states whose `nstep` is 1, 3, and 5. -/
theorem claim_c7 :
    (c7Run [false, true, false, true, false, true]).hist [3] = 3
    ∧ (c7Run [false, true, false, true, false, true]).hist [7] = 3
    ∧ (c7Run [false, true, false, true, false, true]).nstep = 7
    ∧ fitting_step c7M.fit_threshold c7M.fit_freq (c7Run []).nstep = true
    ∧ fitting_step c7M.fit_threshold c7M.fit_freq (c7Run [false]).nstep = false
    ∧ fitting_step c7M.fit_threshold c7M.fit_freq (c7Run [false, true]).nstep = true
    ∧ fitting_step c7M.fit_threshold c7M.fit_freq
        (c7Run [false, true, false]).nstep = false
    ∧ fitting_step c7M.fit_threshold c7M.fit_freq
        (c7Run [false, true, false, true]).nstep = true
    ∧ fitting_step c7M.fit_threshold c7M.fit_freq
        (c7Run [false, true, false, true, false]).nstep = false := by
  refine ⟨?_, ?_, by decide, by decide, by decide, by decide, by decide, by decide,
    by decide⟩
  · simp only [c7Run, run, List.foldl_cons, List.foldl_nil, update_hist,
      c7_index_false, c7_index_true]
    decide
  · simp only [c7Run, run, List.foldl_cons, List.foldl_nil, update_hist,
      c7_index_false, c7_index_true]
    decide

/-- Externals whose CV evaluates to 5 at the initial snapshot. -/
def c8Ext : Externals ℚ Unit :=
  { cv := fun _ => ([5], [[1]])
    momenta := fun _ => [0]
    solve := fun _ v => v
    fit := fun f => (f [0]).sum
    get_grad := fun c _ => [c]
    get_grid_index := spec_grid_index [0] [4] [4]
    dt := 1
    natoms := 1
    dimensionality := 3 }

/-- C8 counterexample: when the collective variable of the initial snapshot
is 5, `initialize` stores `xi = [5]`, not zero. -/
theorem claim_c8_cex :
    (initState exM c8Ext ()).xi = [5] ∧ (initState exM c8Ext ()).xi ≠ [0] := by
  constructor
  · rfl
  · norm_num [initState, c8Ext]

end SpecABF
